import Mathlib

/-!
Shallow embedding of the MeteoriteLandings data-preparation pipeline.

Sources modelled:
- `src/data_prep.py` : the cleaning/classification core (`clean_df`,
  `apply_year_fixes`, `exclude_invalid_coordinates`, `add_category`, and the
  three compiled regular expressions `stony_iron_re`, `iron_re`, `stony_re`).
- `src/streamlit_app.py` : the `load_data` orchestration that calls `clean_df`.
- `app.py` : the older standalone `load_data` with its inline cleaning steps
  (including the `year <= 2025` cutoff).

A pandas cell is modelled by `Cell`: `missing` is NaN, `num q` is a numeric
value (machine floats are modelled as exact rationals), and `str s` is
non-numeric text.  A cell whose raw text parses as a number is modelled
directly as `num` (that is what `pd.to_numeric` produces for it); `str`
covers exactly the text that `pd.to_numeric(..., errors="coerce")` turns
into NaN.  A data frame is a list of rows; the `category` column added by
`add_category` is an `Option String` that is `none` while the column is
absent.
-/

inductive Cell where
  | missing : Cell
  | num : ℚ → Cell
  | str : String → Cell
deriving DecidableEq, Repr

/-- `pd.to_numeric(col, errors="coerce")`: numbers stay, everything else
(missing values and non-numeric text) becomes NaN. -/
def to_numeric : Cell → Cell
  | Cell.missing => Cell.missing
  | Cell.num q => Cell.num q
  | Cell.str _ => Cell.missing

/-- `col.fillna(d)` for a string default `d`. -/
def fillna (c : Cell) (d : String) : Cell :=
  match c with
  | Cell.missing => Cell.str d
  | c => c

/-- pandas `notna`: true for every value except NaN. -/
def notna : Cell → Bool
  | Cell.missing => false
  | _ => true

/-- `col > 0` elementwise: NaN and non-numeric compare false. -/
def cellPos : Cell → Bool
  | Cell.num q => decide (0 < q)
  | _ => false

/-- `col.between(lo, hi)` elementwise: inclusive bounds, NaN compares false. -/
def cellBetween (c : Cell) (lo hi : ℚ) : Bool :=
  match c with
  | Cell.num q => decide (lo ≤ q) && decide (q ≤ hi)
  | _ => false

/-- `col == x` elementwise against a numeric literal: NaN and text compare
false. -/
def cellEqNum (c : Cell) (x : ℚ) : Bool :=
  match c with
  | Cell.num q => decide (q = x)
  | _ => false

/-- `col <= x` elementwise: NaN and text compare false. -/
def cellLE (c : Cell) (x : ℚ) : Bool :=
  match c with
  | Cell.num q => decide (q ≤ x)
  | _ => false

/-- `.astype(str)` on a single cell.  Numeric rendering differs from pandas
in formatting only; in the pipeline this is always applied after
`fillna("")`, so the `missing` branch is unreachable there. -/
def cellToStr : Cell → String
  | Cell.str s => s
  | Cell.num q => toString q
  | Cell.missing => "nan"

/-- `.astype(int)` on a rational: truncation toward zero, as in
numpy/pandas float-to-int conversion.  Both operands of the integer
division are nonnegative, so the result does not depend on the rounding
convention of `Int` division. -/
def astype_int_q (q : ℚ) : ℤ :=
  if 0 ≤ q.num then q.num / (q.den : ℤ) else -((-q.num) / (q.den : ℤ))

/-- `.astype(int)` on a cell.  pandas faults on NaN here; in `clean_df` the
step runs after `dropna`, so only numeric cells ever reach it (proved
below), and the `missing` fallback is unreachable. -/
def astype_int_cell : Cell → Cell
  | Cell.num q => Cell.num ((astype_int_q q : ℤ) : ℚ)
  | Cell.missing => Cell.missing
  | Cell.str _ => Cell.missing

/-! ## The regular expressions of `data_prep.py`

Python `re.search` semantics: the pattern matches the string iff it matches
at some position.  Word characters (`\w` for this ASCII vocabulary) are
alphanumerics and underscore; `\b` sits between a word character and a
non-word character (or a string edge).  All word alternatives below begin
and end with a word character, so the boundary checks reduce to the
neighbouring character not being a word character.  Case-insensitivity
(`(?i)`) is modelled by lowercasing the subject string. -/

def isWordChar (c : Char) : Bool := c.isAlphanum || c = '_'

/-- No word character immediately before the current position. -/
def bfree : Option Char → Bool
  | none => true
  | some c => !isWordChar c

/-- No word character immediately after a candidate word. -/
def boundaryAfterOK : List Char → Bool
  | [] => true
  | c :: _ => !isWordChar c

/-- The word `w` occurs at the head of `cs` with a word boundary after it. -/
def wordHere (w : List Char) (cs : List Char) : Bool :=
  w.isPrefixOf cs && boundaryAfterOK (cs.drop w.length)

/-- `re.search` for `\b(w1|w2|...)\b`: some alternative occurs at some
position with word boundaries on both sides.  `prev` is the character just
before the current position (`none` at the start of the string). -/
def wordSearch (ws : List (List Char)) (prev : Option Char) (cs : List Char) : Bool :=
  (bfree prev && ws.any fun w => wordHere w cs) ||
  (match cs with
   | [] => false
   | c :: rest => wordSearch ws (some c) rest)

/-- `re.search` for a bare literal: the word occurs somewhere as a
substring, no boundary requirements. -/
def subSearch (w : List Char) (cs : List Char) : Bool :=
  w.isPrefixOf cs ||
  (match cs with
   | [] => false
   | _ :: rest => subSearch w rest)

/-- `stony_iron_re = re.compile(r"(?i)\b(pallasite|mesosiderite)\b")` -/
def stony_iron_words : List (List Char) := ["pallasite".data, "mesosiderite".data]

/-- `iron_re = re.compile(r"(?i)\b(iron|hexahedrite|octahedrite|ataxite)\b")` -/
def iron_words : List (List Char) :=
  ["iron".data, "hexahedrite".data, "octahedrite".data, "ataxite".data]

/-- The `(?i)` flag: compare against the lowercased character sequence. -/
def lowerData (s : String) : List Char := s.data.map Char.toLower

def matches_stony_iron (s : String) : Bool :=
  wordSearch stony_iron_words none (lowerData s)

def matches_iron (s : String) : Bool :=
  wordSearch iron_words none (lowerData s)

/-- The `^(...)` branch of `stony_re`, applicable only at position 0.
Because every trailing `[0-9./~\-\(\)]*` accepts zero characters and
carries no closing boundary, each anchored alternative is decided by the
first one or two characters alone:
- `C[IMVORKHBF][0-9./~\-\(\)]*` and `C[0-9][0-9./~\-\(\)]*(?:-ung)?`:
  a `c` followed by one of `imvorkhbf` or a digit;
- `C\b`: a `c` at the end of the string or followed by a non-word character;
- `OC[0-9./~\-\(\)]*` (and `OC\b`, subsumed by it): a leading `oc`;
- `H/L{1,2}/E/R/K/F` with optional grade characters: the bare first letter
  suffices. -/
def anchoredStony : List Char → Bool
  | [] => false
  | c :: rest =>
    if c = 'c' then
      match rest with
      | [] => true
      | d :: _ =>
        (['i', 'm', 'v', 'o', 'r', 'k', 'h', 'b', 'f'].contains d) || d.isDigit ||
          !isWordChar d
    else if c = 'o' then
      match rest with
      | 'c' :: _ => true
      | _ => false
    else
      c = 'h' || c = 'l' || c = 'e' || c = 'r' || c = 'k' || c = 'f'

/-- The `\b(H|L|LL|E|R|K|F|C|OC)\b` branch of `stony_re`. -/
def stony_word_alts : List (List Char) :=
  [['h'], ['l'], ['l', 'l'], ['e'], ['r'], ['k'], ['f'], ['c'], ['o', 'c']]

/-- The plain-literal branches of `stony_re`. -/
def stony_substrs : List (List Char) :=
  ["chondrite".data, "achondrite".data, "lun".data, "mar".data,
   "acapulcoite".data, "lodra".data, "brachi".data, "winona".data,
   "breccia".data, "ureil".data,
   "eucrite".data, "diogen".data, "howard".data, "angrite".data, "aubrite".data]

/-- `stony_re.search(s)` as a boolean. -/
def matches_stony (s : String) : Bool :=
  let cs := lowerData s
  anchoredStony cs || wordSearch stony_word_alts none cs ||
    stony_substrs.any fun w => subSearch w cs

/-! ## Rows and tables -/

structure Row where
  id : Cell
  name : Cell
  recclass : Cell
  mass_g : Cell
  fall : Cell
  year : Cell
  reclat : Cell
  reclong : Cell
  category : Option String
deriving DecidableEq, Repr

abbrev Table := List Row

/-- The subject string used by `add_category`:
`df[col].fillna("").astype(str)`. -/
def recStrOf (r : Row) : String := cellToStr (fillna r.recclass "")

/-! ## Column operations of `clean_df` (`src/data_prep.py`, lines 64-81)

One definition per source line; `clean_df` below composes them in source
order.  The aliasing behaviour of `df.copy()` and of in-place column
assignment is modelled separately by the store-passing versions further
down; on values each line is a map or a filter over the rows. -/

def coerce_id_col (t : Table) : Table :=
  t.map fun r => { r with id := to_numeric r.id }

def coerce_year_col (t : Table) : Table :=
  t.map fun r => { r with year := to_numeric r.year }

def coerce_mass_col (t : Table) : Table :=
  t.map fun r => { r with mass_g := to_numeric r.mass_g }

def coerce_reclat_col (t : Table) : Table :=
  t.map fun r => { r with reclat := to_numeric r.reclat }

def coerce_reclong_col (t : Table) : Table :=
  t.map fun r => { r with reclong := to_numeric r.reclong }

def fill_recclass_col (t : Table) : Table :=
  t.map fun r => { r with recclass := fillna r.recclass "Unclassified" }

def fill_fall_col (t : Table) : Table :=
  t.map fun r => { r with fall := fillna r.fall "Unknown" }

def fill_name_col (t : Table) : Table :=
  t.map fun r => { r with name := fillna r.name "Unknown" }

/-- `df.dropna(subset=["year", "mass (g)", "reclat", "reclong"])`. -/
def dropnaOK (r : Row) : Bool :=
  notna r.year && notna r.mass_g && notna r.reclat && notna r.reclong

def dropna_step (t : Table) : Table := t.filter dropnaOK

/-- `df = df[df["mass (g)"] > 0]`. -/
def mass_filter_step (t : Table) : Table := t.filter fun r => cellPos r.mass_g

/-- `year_fixes = {57150: 2010}` (`data_prep.py`, lines 4-7). -/
def year_fixes : List (ℚ × ℚ) := [(57150, 2010)]

/-- One `df.loc[df["id"] == meteorID, "year"] = year` assignment. -/
def yfix_col (yf : ℚ × ℚ) (t : Table) : Table :=
  t.map fun r => if cellEqNum r.id yf.1 then { r with year := Cell.num yf.2 } else r

/-- `apply_year_fixes` (`data_prep.py`, lines 33-37): loop over the fix
table, overwriting `year` where `id` matches. -/
def apply_year_fixes (t : Table) : Table :=
  year_fixes.foldl (fun t' yf => yfix_col yf t') t

/-- The validity mask of `exclude_invalid_coordinates`
(`data_prep.py`, lines 42-45). -/
def coordOK (r : Row) : Bool :=
  cellBetween r.reclat (-90) 90 && cellBetween r.reclong (-180) 180

/-- `exclude_invalid_coordinates` (`data_prep.py`, lines 39-46): keep only
rows with both coordinates in range.  The `df.copy()` is a value-level
identity; its aliasing effect is modelled in the store-passing version. -/
def exclude_invalid_coordinates (t : Table) : Table := t.filter coordOK

/-- `df["category"] = "Other"`. -/
def cat_other_col (t : Table) : Table :=
  t.map fun r => { r with category := some "Other" }

/-- `df.loc[m_stony, "category"] = "Stony"`.  The masks are computed from
`recclass` before any category write; no category write touches
`recclass`, so recomputing the mask here is equivalent. -/
def cat_stony_col (t : Table) : Table :=
  t.map fun r =>
    if matches_stony (recStrOf r) then { r with category := some "Stony" } else r

/-- `df.loc[m_iron, "category"] = "Iron"`. -/
def cat_iron_col (t : Table) : Table :=
  t.map fun r =>
    if matches_iron (recStrOf r) then { r with category := some "Iron" } else r

/-- `df.loc[m_stony_iron, "category"] = "Stony-iron"`. -/
def cat_stony_iron_col (t : Table) : Table :=
  t.map fun r =>
    if matches_stony_iron (recStrOf r) then { r with category := some "Stony-iron" } else r

/-- `add_category` (`data_prep.py`, lines 48-60) with the default
`col="recclass"`: default everything to `Other`, then overwrite with
`Stony`, then `Iron`, then `Stony-iron`. -/
def add_category (t : Table) : Table :=
  cat_stony_iron_col (cat_iron_col (cat_stony_col (cat_other_col t)))

/-- `df["year"] = df["year"].astype(int)` (`data_prep.py`, line 81). -/
def year_int_col (t : Table) : Table :=
  t.map fun r => { r with year := astype_int_cell r.year }

/-- `clean_df` (`data_prep.py`, lines 62-82), one step per source line in
source order. -/
def clean_df (t : Table) : Table :=
  let t := coerce_id_col t
  let t := coerce_year_col t
  let t := coerce_mass_col t
  let t := coerce_reclat_col t
  let t := coerce_reclong_col t
  let t := fill_recclass_col t
  let t := fill_fall_col t
  let t := fill_name_col t
  let t := dropna_step t
  let t := mass_filter_step t
  let t := apply_year_fixes t
  let t := exclude_invalid_coordinates t
  let t := add_category t
  year_int_col t

/-! ## Per-row view of the pipeline -/

/-- Combined effect of the five coercions and three fills on one row. -/
def coerce_fill_row (r : Row) : Row :=
  { r with
    id := to_numeric r.id
    year := to_numeric r.year
    mass_g := to_numeric r.mass_g
    reclat := to_numeric r.reclat
    reclong := to_numeric r.reclong
    recclass := fillna r.recclass "Unclassified"
    fall := fillna r.fall "Unknown"
    name := fillna r.name "Unknown" }

/-- Effect of `apply_year_fixes` on one row. -/
def fix_row (r : Row) : Row :=
  if cellEqNum r.id 57150 then { r with year := Cell.num 2010 } else r

/-- Effect of `add_category` on one row. -/
def categorize_row (r : Row) : Row :=
  let r := { r with category := some "Other" }
  let r := if matches_stony (recStrOf r) then { r with category := some "Stony" } else r
  let r := if matches_iron (recStrOf r) then { r with category := some "Iron" } else r
  if matches_stony_iron (recStrOf r) then { r with category := some "Stony-iron" } else r

/-- Effect of the final `astype(int)` on one row. -/
def finish_row (r : Row) : Row :=
  { r with year := astype_int_cell r.year }

/-- What `clean_df` does to a single input row: `some` of the produced
output row if the row survives both filters, `none` if it is dropped. -/
def clean_row (r : Row) : Option Row :=
  let p := coerce_fill_row r
  if dropnaOK p then
    if cellPos p.mass_g then
      let q := fix_row p
      if coordOK q then some (finish_row (categorize_row q)) else none
    else none
  else none

/-! ## Supporting lemmas: the pipeline as a per-row function -/

theorem coerce_fill_eq_map (t : Table) :
    fill_name_col (fill_fall_col (fill_recclass_col (coerce_reclong_col
      (coerce_reclat_col (coerce_mass_col (coerce_year_col (coerce_id_col t))))))) =
      t.map coerce_fill_row := by
  simp only [fill_name_col, fill_fall_col, fill_recclass_col, coerce_reclong_col,
    coerce_reclat_col, coerce_mass_col, coerce_year_col, coerce_id_col, List.map_map]
  rfl

theorem apply_year_fixes_eq_map (t : Table) :
    apply_year_fixes t = t.map fix_row := by
  simp only [apply_year_fixes, year_fixes, List.foldl_cons, List.foldl_nil, yfix_col]
  rfl

theorem add_category_eq_map (t : Table) :
    add_category t = t.map categorize_row := by
  simp only [add_category, cat_stony_iron_col, cat_iron_col, cat_stony_col,
    cat_other_col, List.map_map]
  rfl

theorem notna_to_numeric_num {c : Cell} (h : notna (to_numeric c) = true) :
    ∃ q : ℚ, to_numeric c = Cell.num q := by
  cases c <;> simp_all [to_numeric, notna]

theorem cellPos_num {c : Cell} (h : cellPos c = true) :
    ∃ q : ℚ, c = Cell.num q ∧ 0 < q := by
  cases c <;> simp_all [cellPos]

theorem cellBetween_num {c : Cell} {lo hi : ℚ} (h : cellBetween c lo hi = true) :
    ∃ q : ℚ, c = Cell.num q ∧ lo ≤ q ∧ q ≤ hi := by
  cases c <;> simp_all [cellBetween]

theorem cellBetween_iff {c : Cell} {lo hi : ℚ} :
    cellBetween c lo hi = true ↔ ∃ q : ℚ, c = Cell.num q ∧ lo ≤ q ∧ q ≤ hi := by
  cases c <;> simp [cellBetween]

theorem fix_row_mass (r : Row) : (fix_row r).mass_g = r.mass_g := by
  unfold fix_row; split <;> rfl

theorem fix_row_recclass (r : Row) : (fix_row r).recclass = r.recclass := by
  unfold fix_row; split <;> rfl

theorem fix_row_fall (r : Row) : (fix_row r).fall = r.fall := by
  unfold fix_row; split <;> rfl

theorem fix_row_name (r : Row) : (fix_row r).name = r.name := by
  unfold fix_row; split <;> rfl

theorem fix_row_reclat (r : Row) : (fix_row r).reclat = r.reclat := by
  unfold fix_row; split <;> rfl

theorem fix_row_reclong (r : Row) : (fix_row r).reclong = r.reclong := by
  unfold fix_row; split <;> rfl


theorem recStrOf_set_category (r : Row) (c : Option String) :
    recStrOf { r with category := c } = recStrOf r := rfl

theorem categorize_row_mass (r : Row) : (categorize_row r).mass_g = r.mass_g := by
  cases hs : matches_stony (recStrOf r) <;> cases hi : matches_iron (recStrOf r) <;>
    cases hsi : matches_stony_iron (recStrOf r) <;>
      simp [categorize_row, recStrOf_set_category, hs, hi, hsi]

theorem categorize_row_year (r : Row) : (categorize_row r).year = r.year := by
  cases hs : matches_stony (recStrOf r) <;> cases hi : matches_iron (recStrOf r) <;>
    cases hsi : matches_stony_iron (recStrOf r) <;>
      simp [categorize_row, recStrOf_set_category, hs, hi, hsi]

theorem categorize_row_reclat (r : Row) : (categorize_row r).reclat = r.reclat := by
  cases hs : matches_stony (recStrOf r) <;> cases hi : matches_iron (recStrOf r) <;>
    cases hsi : matches_stony_iron (recStrOf r) <;>
      simp [categorize_row, recStrOf_set_category, hs, hi, hsi]

theorem categorize_row_reclong (r : Row) : (categorize_row r).reclong = r.reclong := by
  cases hs : matches_stony (recStrOf r) <;> cases hi : matches_iron (recStrOf r) <;>
    cases hsi : matches_stony_iron (recStrOf r) <;>
      simp [categorize_row, recStrOf_set_category, hs, hi, hsi]

theorem categorize_row_recclass (r : Row) : (categorize_row r).recclass = r.recclass := by
  cases hs : matches_stony (recStrOf r) <;> cases hi : matches_iron (recStrOf r) <;>
    cases hsi : matches_stony_iron (recStrOf r) <;>
      simp [categorize_row, recStrOf_set_category, hs, hi, hsi]

theorem categorize_row_fall (r : Row) : (categorize_row r).fall = r.fall := by
  cases hs : matches_stony (recStrOf r) <;> cases hi : matches_iron (recStrOf r) <;>
    cases hsi : matches_stony_iron (recStrOf r) <;>
      simp [categorize_row, recStrOf_set_category, hs, hi, hsi]

theorem categorize_row_name (r : Row) : (categorize_row r).name = r.name := by
  cases hs : matches_stony (recStrOf r) <;> cases hi : matches_iron (recStrOf r) <;>
    cases hsi : matches_stony_iron (recStrOf r) <;>
      simp [categorize_row, recStrOf_set_category, hs, hi, hsi]

/-- The net effect of the ordered overwrites `Other`, `Stony`, `Iron`,
`Stony-iron` is the descending-priority conditional. -/
theorem categorize_row_category (r : Row) :
    (categorize_row r).category =
      some (if matches_stony_iron (recStrOf r) then "Stony-iron"
            else if matches_iron (recStrOf r) then "Iron"
            else if matches_stony (recStrOf r) then "Stony"
            else "Other") := by
  cases hs : matches_stony (recStrOf r) <;> cases hi : matches_iron (recStrOf r) <;>
    cases hsi : matches_stony_iron (recStrOf r) <;>
      simp [categorize_row, recStrOf_set_category, hs, hi, hsi]

theorem year_int_col_eq_map (t : Table) : year_int_col t = t.map finish_row := rfl

/-- `clean_df` as the composition of per-row maps and filters. -/
theorem clean_df_chain (t : Table) :
    clean_df t =
      ((((((t.map coerce_fill_row).filter dropnaOK).filter
        (fun r => cellPos r.mass_g)).map fix_row).filter coordOK).map
          categorize_row).map finish_row := by
  simp only [clean_df]
  rw [coerce_fill_eq_map, apply_year_fixes_eq_map, add_category_eq_map]
  rfl

/-- `clean_df` acts row by row: its output is exactly the rows on which
`clean_row` succeeds. -/
theorem clean_df_eq_filterMap (t : Table) : clean_df t = t.filterMap clean_row := by
  rw [clean_df_chain]
  induction t with
  | nil => rfl
  | cons r t ih =>
    simp only [List.map_cons, List.filter_cons, List.filterMap_cons]
    by_cases hd : dropnaOK (coerce_fill_row r) = true
    · by_cases hm : cellPos (coerce_fill_row r).mass_g = true
      · by_cases hc : coordOK (fix_row (coerce_fill_row r)) = true
        · have hcr : clean_row r =
              some (finish_row (categorize_row (fix_row (coerce_fill_row r)))) := by
            unfold clean_row
            simp only [hd, hm, hc, if_true]
          simp only [hd, hm, hc, if_true, List.filter_cons, List.map_cons, hcr, ih]
        · have hcf : coordOK (fix_row (coerce_fill_row r)) = false := by simpa using hc
          have hcr : clean_row r = none := by
            unfold clean_row
            simp only [hd, hm, hcf, if_true, Bool.false_eq_true, if_false]
          simp only [hd, hm, if_true, List.map_cons, List.filter_cons, hcf,
            Bool.false_eq_true, if_false, hcr, ih]
      · have hmf : cellPos (coerce_fill_row r).mass_g = false := by simpa using hm
        have hcr : clean_row r = none := by
          unfold clean_row
          simp only [hd, hmf, if_true, Bool.false_eq_true, if_false]
        simp only [hd, if_true, List.filter_cons, hmf, Bool.false_eq_true, if_false,
          hcr, ih]
    · have hdf : dropnaOK (coerce_fill_row r) = false := by simpa using hd
      have hcr : clean_row r = none := by
        unfold clean_row
        simp only [hdf, Bool.false_eq_true, if_false]
      simp only [hdf, Bool.false_eq_true, if_false, hcr, ih]

/-- Membership in the output of `clean_df`, characterized row by row. -/
theorem mem_clean_df {t : Table} {c : Row} :
    c ∈ clean_df t ↔ ∃ r, r ∈ t ∧ clean_row r = some c := by
  rw [clean_df_eq_filterMap]
  simp [List.mem_filterMap]

/-! ## The loaders

`load_data` of `src/streamlit_app.py` (lines 26-41) and `load_data` of
`app.py` (lines 16-42).  The I/O environment is explicit: whether the local
cache file exists, and what each `pd.read_csv` call would produce —
`none` models the call raising (file I/O error, network error, malformed
data), which the `try`/`except` turns into an empty frame labelled
`"Unavailable"`. -/

structure LoadEnv where
  local_exists : Bool
  local_read : Option Table
  remote_read : Option Table
deriving Repr

/-- `load_data` of `src/streamlit_app.py`: prefer the local CSV, else the
remote URL; clean with `clean_df`; any exception yields
`(empty, "Unavailable")`. -/
def load_data (e : LoadEnv) : Table × String :=
  if e.local_exists then
    match e.local_read with
    | some df => (clean_df df, "Local CSV")
    | none => ([], "Unavailable")
  else
    match e.remote_read with
    | some df => (clean_df df, "NASA Open Data")
    | none => ([], "Unavailable")

/-- `df = df[df["year"] <= 2025]` (`app.py`, line 34). -/
def year_cutoff_step (t : Table) : Table := t.filter fun r => cellLE r.year 2025

/-- The inline cleaning steps of `app.py` `load_data` (lines 26-37), in
source order: coerce `year`, `mass (g)`, `reclat`, `reclong`; drop rows
missing any of them; keep `mass > 0`; cast `year` to int; keep
`year <= 2025`; fill `recclass`, `fall`, `name`. -/
def app_prepare (t : Table) : Table :=
  let t := coerce_year_col t
  let t := coerce_mass_col t
  let t := coerce_reclat_col t
  let t := coerce_reclong_col t
  let t := dropna_step t
  let t := mass_filter_step t
  let t := year_int_col t
  let t := year_cutoff_step t
  let t := fill_recclass_col t
  let t := fill_fall_col t
  fill_name_col t

/-- `load_data` of `app.py`: same source selection and error handling as
the streamlit variant, but with the inline cleaning steps (no
`clean_df`, no category, no year fixes, no coordinate check — and with
the `year <= 2025` cutoff). -/
def app_load_data (e : LoadEnv) : Table × String :=
  if e.local_exists then
    match e.local_read with
    | some df => (app_prepare df, "Local CSV")
    | none => ([], "Unavailable")
  else
    match e.remote_read with
    | some df => (app_prepare df, "NASA Open Data")
    | none => ([], "Unavailable")

/-! ## Store-passing model of `clean_df`

pandas data frames are mutable heap objects.  To settle the frame and
determinism claims we re-run the very same column operations in an
explicit store: a `Store` is the list of allocated frames, a frame handle
is an index, `df.copy()` allocates a fresh frame with the same rows, an
in-place column assignment overwrites the frame at its handle, and the
frame-returning pandas calls (`dropna`, boolean-mask selection) allocate
fresh frames. -/

abbrev Store := List Table

def lookupT (σ : Store) (h : Nat) : Table := σ.getD h []

def alloc (σ : Store) (t : Table) : Store × Nat := (σ ++ [t], σ.length)

/-- `df.copy()`: allocate a fresh frame holding the same rows. -/
def copy_st (σ : Store) (h : Nat) : Store × Nat := alloc σ (lookupT σ h)

/-- An in-place column assignment `df[...] = ...` on the frame at `h`. -/
def setcol_st (σ : Store) (h : Nat) (f : Table → Table) : Store :=
  σ.set h (f (lookupT σ h))

/-- `apply_year_fixes` (`data_prep.py`, lines 33-37) as run: copy, then one
in-place `df.loc[...] = ...` per entry of the fix table. -/
def apply_year_fixes_st (σ : Store) (h : Nat) : Store × Nat :=
  let sh := copy_st σ h
  (year_fixes.foldl (fun σ' yf => setcol_st σ' sh.2 (yfix_col yf)) sh.1, sh.2)

/-- `exclude_invalid_coordinates` (lines 39-46) as run: copy, then the
boolean-mask selection `df[valid]` allocates the filtered frame. -/
def exclude_invalid_coordinates_st (σ : Store) (h : Nat) : Store × Nat :=
  let sh := copy_st σ h
  alloc sh.1 ((lookupT sh.1 sh.2).filter coordOK)

/-- `add_category` (lines 48-60) as run: the masks are pure reads of
`recclass` (which no category write touches), then copy, then four
in-place category-column writes. -/
def add_category_st (σ : Store) (h : Nat) : Store × Nat :=
  let sh := copy_st σ h
  let σ1 := setcol_st sh.1 sh.2 cat_other_col
  let σ2 := setcol_st σ1 sh.2 cat_stony_col
  let σ3 := setcol_st σ2 sh.2 cat_iron_col
  (setcol_st σ3 sh.2 cat_stony_iron_col, sh.2)

/-- `clean_df` (lines 62-82) as run against the store: `df = df.copy()`,
eight in-place column assignments, two frame-allocating filters, the three
helper calls, and the final in-place `astype(int)` assignment.  Returns
the final store and the handle of the returned frame. -/
def clean_df_state (σ0 : Store) (h0 : Nat) : Store × Nat :=
  let s1 := copy_st σ0 h0
  let σ := setcol_st s1.1 s1.2 coerce_id_col
  let σ := setcol_st σ s1.2 coerce_year_col
  let σ := setcol_st σ s1.2 coerce_mass_col
  let σ := setcol_st σ s1.2 coerce_reclat_col
  let σ := setcol_st σ s1.2 coerce_reclong_col
  let σ := setcol_st σ s1.2 fill_recclass_col
  let σ := setcol_st σ s1.2 fill_fall_col
  let σ := setcol_st σ s1.2 fill_name_col
  let s2 := alloc σ (dropna_step (lookupT σ s1.2))
  let s3 := alloc s2.1 (mass_filter_step (lookupT s2.1 s2.2))
  let s4 := apply_year_fixes_st s3.1 s3.2
  let s5 := exclude_invalid_coordinates_st s4.1 s4.2
  let s6 := add_category_st s5.1 s5.2
  (setcol_st s6.1 s6.2 year_int_col, s6.2)

/-- The frames allocated by one run of `clean_df_state` on an input frame
holding `T`, in allocation order; the last one is the returned frame. -/
def cleanFrames (T : Table) : List Table :=
  let A := fill_name_col (fill_fall_col (fill_recclass_col (coerce_reclong_col
    (coerce_reclat_col (coerce_mass_col (coerce_year_col (coerce_id_col T)))))))
  let B := mass_filter_step (dropna_step A)
  let C := exclude_invalid_coordinates (apply_year_fixes B)
  [A, dropna_step A, B, apply_year_fixes B, apply_year_fixes B, C,
    year_int_col (add_category C)]

theorem lookupT_append_left (σ : Store) (l : List Table) (i : Nat)
    (h : i < σ.length) : lookupT (σ ++ l) i = lookupT σ i := by
  induction σ generalizing i with
  | nil => cases h
  | cons a σ ih =>
    cases i with
    | zero => rfl
    | succ j =>
      have hj : j < σ.length := Nat.lt_of_succ_lt_succ h
      simpa [lookupT, List.getD] using ih j hj

theorem lookup_last (σ : Store) (x : Table) : lookupT (σ ++ [x]) σ.length = x := by
  induction σ with
  | nil => rfl
  | cons a σ ih => simp only [List.cons_append, List.length_cons, lookupT, List.getD_cons_succ]; exact ih

theorem set_last (σ : Store) (x y : Table) :
    (σ ++ [x]).set σ.length y = σ ++ [y] := by
  induction σ with
  | nil => rfl
  | cons a σ ih => simp [List.set, ih]

theorem setcol_last (σ : Store) (x : Table) (f : Table → Table) :
    setcol_st (σ ++ [x]) σ.length f = σ ++ [f x] := by
  rw [setcol_st, lookup_last, set_last]

theorem copy_last (σ : Store) (x : Table) :
    copy_st (σ ++ [x]) σ.length = ((σ ++ [x]) ++ [x], (σ ++ [x]).length) := by
  rw [copy_st, lookup_last]
  rfl

/-- Closed form of one run of `clean_df_state`: it appends exactly the
frames of `cleanFrames` to the store and returns the handle of the last
one.  In particular every pre-existing frame, the input frame included, is
untouched. -/
theorem clean_df_state_eq (σ0 : Store) (h0 : Nat) :
    clean_df_state σ0 h0 = (σ0 ++ cleanFrames (lookupT σ0 h0), σ0.length + 6) := by
  simp only [clean_df_state, apply_year_fixes_st, exclude_invalid_coordinates_st,
    add_category_st, year_fixes, List.foldl_cons, List.foldl_nil,
    copy_st, alloc, setcol_last, lookup_last, copy_last]
  simp [cleanFrames, apply_year_fixes, year_fixes, exclude_invalid_coordinates,
    add_category, List.append_assoc, List.length_append]

/-- The frame returned by the store-level run holds exactly the rows the
pure `clean_df` computes from the rows of the input frame. -/
theorem clean_df_state_result (σ : Store) (h : Nat) :
    lookupT (clean_df_state σ h).1 (clean_df_state σ h).2 = clean_df (lookupT σ h) := by
  rw [clean_df_state_eq]
  have hlast : ∀ (a b c d e f g : Table),
      lookupT (σ ++ [a, b, c, d, e, f, g]) (σ.length + 6) = g := by
    intro a b c d e f g
    have : σ ++ [a, b, c, d, e, f, g] = (σ ++ [a, b, c, d, e, f]) ++ [g] := by
      simp
    rw [this]
    have hlen : σ.length + 6 = (σ ++ [a, b, c, d, e, f]).length := by
      simp
    rw [hlen, lookup_last]
  show lookupT (σ ++ cleanFrames (lookupT σ h)) (σ.length + 6) = clean_df (lookupT σ h)
  rw [cleanFrames]
  rw [hlast]
  rw [clean_df]

/-! ## Small field lemmas used by the claim theorems -/

theorem finish_row_mass (r : Row) : (finish_row r).mass_g = r.mass_g := rfl

theorem finish_row_reclat (r : Row) : (finish_row r).reclat = r.reclat := rfl

theorem finish_row_reclong (r : Row) : (finish_row r).reclong = r.reclong := rfl

theorem finish_row_recclass (r : Row) : (finish_row r).recclass = r.recclass := rfl

theorem finish_row_fall (r : Row) : (finish_row r).fall = r.fall := rfl

theorem finish_row_name (r : Row) : (finish_row r).name = r.name := rfl

theorem finish_row_category (r : Row) : (finish_row r).category = r.category := rfl

theorem finish_row_year (r : Row) : (finish_row r).year = astype_int_cell r.year := rfl

theorem coerce_fill_row_year (r : Row) : (coerce_fill_row r).year = to_numeric r.year := rfl

theorem coerce_fill_row_id (r : Row) : (coerce_fill_row r).id = to_numeric r.id := rfl

theorem coerce_fill_row_recclass (r : Row) :
    (coerce_fill_row r).recclass = fillna r.recclass "Unclassified" := rfl

theorem coerce_fill_row_fall (r : Row) :
    (coerce_fill_row r).fall = fillna r.fall "Unknown" := rfl

theorem coerce_fill_row_name (r : Row) :
    (coerce_fill_row r).name = fillna r.name "Unknown" := rfl

theorem fix_row_year_cases (r : Row) :
    (fix_row r).year = r.year ∨ (fix_row r).year = Cell.num 2010 := by
  unfold fix_row
  split
  · right; rfl
  · left; rfl

theorem dropnaOK_split {r : Row} (h : dropnaOK r = true) :
    notna r.year = true ∧ notna r.mass_g = true ∧ notna r.reclat = true ∧
      notna r.reclong = true := by
  simpa [dropnaOK, Bool.and_eq_true, and_assoc] using h

theorem coordOK_split {r : Row} (h : coordOK r = true) :
    cellBetween r.reclat (-90) 90 = true ∧ cellBetween r.reclong (-180) 180 = true := by
  simpa [coordOK, Bool.and_eq_true] using h

theorem clean_row_some_iff {r c : Row} :
    clean_row r = some c ↔
      dropnaOK (coerce_fill_row r) = true ∧
      cellPos (coerce_fill_row r).mass_g = true ∧
      coordOK (fix_row (coerce_fill_row r)) = true ∧
      finish_row (categorize_row (fix_row (coerce_fill_row r))) = c := by
  unfold clean_row
  by_cases hd : dropnaOK (coerce_fill_row r) = true <;>
    by_cases hm : cellPos (coerce_fill_row r).mass_g = true <;>
      by_cases hc : coordOK (fix_row (coerce_fill_row r)) = true <;>
        simp [hd, hm, hc]

/-! ## Concrete rows used as witnesses and counterexamples -/

/-- A fully valid raw row: ordinary chondrite `L5`. -/
def rowOK : Row :=
  { id := Cell.num 1, name := Cell.str "Aachen", recclass := Cell.str "L5",
    mass_g := Cell.num 21, fall := Cell.str "Fell", year := Cell.num 1880,
    reclat := Cell.num 50, reclong := Cell.num 6, category := none }

/-- What `clean_df` makes of `rowOK`. -/
def rowOK_clean : Row := { rowOK with category := some "Stony" }

/-! ## C1 -/

/-- C1: every row of the table returned by `clean_df` has non-missing
`year`, `mass (g)`, `reclat` and `reclong`; `mass (g)` strictly positive;
`reclat` in `[-90, 90]` and `reclong` in `[-180, 180]`; and a `category`
field populated with one of Stony, Iron, Stony-iron, Other (with `year`
moreover integer-valued). -/
theorem clean_df_invariants (t : Table) (c : Row) (hc : c ∈ clean_df t) :
    (∃ y : ℤ, c.year = Cell.num (y : ℚ)) ∧
    (∃ m : ℚ, c.mass_g = Cell.num m ∧ 0 < m) ∧
    (∃ la : ℚ, c.reclat = Cell.num la ∧ -90 ≤ la ∧ la ≤ 90) ∧
    (∃ lo : ℚ, c.reclong = Cell.num lo ∧ -180 ≤ lo ∧ lo ≤ 180) ∧
    (∃ cat : String, c.category = some cat ∧
      (cat = "Stony" ∨ cat = "Iron" ∨ cat = "Stony-iron" ∨ cat = "Other")) := by
  rcases mem_clean_df.mp hc with ⟨r, _, hcr⟩
  rcases clean_row_some_iff.mp hcr with ⟨hd, hm, hco, hfin⟩
  rcases dropnaOK_split hd with ⟨hy, -, -, -⟩
  rcases coordOK_split hco with ⟨hla, hlo⟩
  subst hfin
  refine ⟨?_, ?_, ?_, ?_, ?_⟩
  · rw [finish_row_year, categorize_row_year]
    rcases fix_row_year_cases (coerce_fill_row r) with hfy | hfy
    · rw [hfy, coerce_fill_row_year]
      rw [coerce_fill_row_year] at hy
      rcases notna_to_numeric_num hy with ⟨qy, hqy⟩
      rw [hqy]
      exact ⟨astype_int_q qy, rfl⟩
    · rw [hfy]
      exact ⟨astype_int_q 2010, rfl⟩
  · rw [finish_row_mass, categorize_row_mass, fix_row_mass]
    exact cellPos_num hm
  · rw [finish_row_reclat, categorize_row_reclat]
    exact cellBetween_num hla
  · rw [finish_row_reclong, categorize_row_reclong]
    exact cellBetween_num hlo
  · rw [finish_row_category, categorize_row_category]
    refine ⟨_, rfl, ?_⟩
    split_ifs <;> simp

/-- C1 witness: the invariants hold of the concrete output row produced by
`clean_df` on the one-row table `[rowOK]`. -/
theorem clean_df_invariants_witness :
    (∃ y : ℤ, rowOK_clean.year = Cell.num (y : ℚ)) ∧
    (∃ m : ℚ, rowOK_clean.mass_g = Cell.num m ∧ 0 < m) ∧
    (∃ la : ℚ, rowOK_clean.reclat = Cell.num la ∧ -90 ≤ la ∧ la ≤ 90) ∧
    (∃ lo : ℚ, rowOK_clean.reclong = Cell.num lo ∧ -180 ≤ lo ∧ lo ≤ 180) ∧
    (∃ cat : String, rowOK_clean.category = some cat ∧
      (cat = "Stony" ∨ cat = "Iron" ∨ cat = "Stony-iron" ∨ cat = "Other")) :=
  clean_df_invariants [rowOK] rowOK_clean (by decide)

/-! ## C2 -/

theorem recStrOf_categorize (a : Row) : recStrOf (categorize_row a) = recStrOf a := by
  unfold recStrOf
  rw [categorize_row_recclass]

/-- C2: for every `recclass` string, `add_category` applies stony first,
then iron overwrites, then stony-iron overwrites, so the resulting
category follows the priority stony-iron > iron > stony > Other; in
particular a string matching both the iron and the stony-iron pattern is
categorized `Stony-iron`. -/
theorem add_category_priority :
    (∀ (t : Table) (r : Row), r ∈ add_category t →
      r.category = some (if matches_stony_iron (recStrOf r) then "Stony-iron"
        else if matches_iron (recStrOf r) then "Iron"
        else if matches_stony (recStrOf r) then "Stony"
        else "Other")) ∧
    (∀ (t : Table) (r : Row), r ∈ add_category t →
      matches_iron (recStrOf r) = true → matches_stony_iron (recStrOf r) = true →
      r.category = some "Stony-iron") := by
  have main : ∀ (t : Table) (r : Row), r ∈ add_category t →
      r.category = some (if matches_stony_iron (recStrOf r) then "Stony-iron"
        else if matches_iron (recStrOf r) then "Iron"
        else if matches_stony (recStrOf r) then "Stony"
        else "Other") := by
    intro t r hr
    rw [add_category_eq_map] at hr
    rcases List.mem_map.mp hr with ⟨a, -, rfl⟩
    rw [recStrOf_categorize, categorize_row_category]
  refine ⟨main, fun t r hr hi hsi => ?_⟩
  rw [main t r hr, hsi]
  simp

/-- A row whose classification text matches both the iron pattern
("octahedrite") and the stony-iron pattern ("mesosiderite"). -/
def rowBoth : Row :=
  { id := Cell.num 4, name := Cell.str "Bondoc", recclass := Cell.str "Octahedrite mesosiderite",
    mass_g := Cell.num 3, fall := Cell.str "Found", year := Cell.num 1956,
    reclat := Cell.num 15, reclong := Cell.num 121, category := none }

def rowBoth_cat : Row := { rowBoth with category := some "Stony-iron" }

/-- C2 witness: on the concrete double-matching string the priority rule
yields `Stony-iron`. -/
theorem add_category_priority_witness : rowBoth_cat.category = some "Stony-iron" :=
  add_category_priority.2 [rowBoth] rowBoth_cat (by decide) (by decide) (by decide)

/-! ## C4 -/

/-- C4: a row whose `id` parses to 57150 and survives coercion and
filtering has `year = 2010` in the `clean_df` output regardless of its
original present numeric year; and the correction step leaves every table
without a matching `id` unchanged. -/
theorem apply_year_fixes_correct :
    (∀ (t : Table) (r c : Row), r ∈ t → to_numeric r.id = Cell.num 57150 →
      clean_row r = some c → c ∈ clean_df t ∧ c.year = Cell.num 2010) ∧
    (∀ t : Table, (∀ p, p ∈ t → cellEqNum p.id 57150 = false) →
      apply_year_fixes t = t) := by
  constructor
  · intro t r c hr hid hc
    refine ⟨mem_clean_df.mpr ⟨r, hr, hc⟩, ?_⟩
    rcases clean_row_some_iff.mp hc with ⟨-, -, -, hfin⟩
    subst hfin
    have hfix : (fix_row (coerce_fill_row r)).year = Cell.num 2010 := by
      unfold fix_row
      rw [coerce_fill_row_id, hid]
      simp [cellEqNum]
    rw [finish_row_year, categorize_row_year, hfix]
    decide
  · intro t h
    rw [apply_year_fixes_eq_map]
    have : ∀ p ∈ t, fix_row p = p := by
      intro p hp
      unfold fix_row
      rw [h p hp]
      simp
    rw [List.map_congr_left this]
    exact List.map_id t

/-- The known-bad record: `id` 57150 with a wrong source year. -/
def row57150 : Row :=
  { id := Cell.num 57150, name := Cell.str "Northwest Africa 7701",
    recclass := Cell.str "CK6", mass_g := Cell.num 55, fall := Cell.str "Found",
    year := Cell.num 2011, reclat := Cell.num 0, reclong := Cell.num 0,
    category := none }

def row57150_clean : Row := { row57150 with year := Cell.num 2010, category := some "Stony" }

/-- C4 witness: the concrete corrected row carries year 2010 in the output,
and the correction step is the identity on a table whose single row has a
non-matching `id`. -/
theorem apply_year_fixes_correct_witness :
    (row57150_clean ∈ clean_df [row57150] ∧ row57150_clean.year = Cell.num 2010) ∧
      apply_year_fixes [rowOK] = [rowOK] :=
  ⟨apply_year_fixes_correct.1 [row57150] row57150 row57150_clean (by decide) (by decide)
      (by decide),
    apply_year_fixes_correct.2 [rowOK] (by decide)⟩

/-! ## C5 -/

/-- An otherwise-valid row with out-of-range latitude 95. -/
def rowLat95 : Row :=
  { id := Cell.num 5, name := Cell.str "Ghost", recclass := Cell.str "H5",
    mass_g := Cell.num 1, fall := Cell.str "Found", year := Cell.num 1950,
    reclat := Cell.num 95, reclong := Cell.num 20, category := none }

/-- An otherwise-valid row on the latitude boundary -90. -/
def rowLatM90 : Row :=
  { id := Cell.num 6, name := Cell.str "Pole", recclass := Cell.str "H5",
    mass_g := Cell.num 1, fall := Cell.str "Found", year := Cell.num 1950,
    reclat := Cell.num (-90), reclong := Cell.num 20, category := none }

/-- C5: the coordinate-validation step retains a row iff its `reclat` lies
in `[-90, 90]` and its `reclong` in `[-180, 180]` (inclusive); concretely,
a row with `reclat = 95` is dropped and a row with `reclat = -90` is kept. -/
theorem exclude_invalid_coordinates_correct :
    (∀ (t : Table) (r : Row), r ∈ exclude_invalid_coordinates t ↔
      r ∈ t ∧ (∃ la : ℚ, r.reclat = Cell.num la ∧ -90 ≤ la ∧ la ≤ 90) ∧
        (∃ lo : ℚ, r.reclong = Cell.num lo ∧ -180 ≤ lo ∧ lo ≤ 180)) ∧
    exclude_invalid_coordinates [rowLat95] = [] ∧
    exclude_invalid_coordinates [rowLatM90] = [rowLatM90] := by
  refine ⟨?_, by decide, by decide⟩
  intro t r
  unfold exclude_invalid_coordinates
  rw [List.mem_filter]
  constructor
  · rintro ⟨hrt, hco⟩
    rcases coordOK_split hco with ⟨hla, hlo⟩
    exact ⟨hrt, cellBetween_num hla, cellBetween_num hlo⟩
  · rintro ⟨hrt, ⟨la, hla, h1, h2⟩, ⟨lo, hlo, h3, h4⟩⟩
    refine ⟨hrt, ?_⟩
    unfold coordOK
    rw [hla, hlo]
    simp [cellBetween, h1, h2, h3, h4]

/-! ## C7 -/

/-- A surviving raw row with missing `name`, `recclass` and `fall`. -/
def rowMiss : Row :=
  { id := Cell.num 7, name := Cell.missing, recclass := Cell.missing,
    mass_g := Cell.num 5, fall := Cell.missing, year := Cell.num 1950,
    reclat := Cell.num 0, reclong := Cell.num 0, category := none }

def rowMiss_clean : Row :=
  { id := Cell.num 7, name := Cell.str "Unknown", recclass := Cell.str "Unclassified",
    mass_g := Cell.num 5, fall := Cell.str "Unknown", year := Cell.num 1950,
    reclat := Cell.num 0, reclong := Cell.num 0, category := some "Other" }

/-- C7: `clean_df` replaces a missing `recclass` with "Unclassified", a
missing `fall` with "Unknown" and a missing `name` with "Unknown"; a row
with missing `recclass` appears in the output categorized `Other` with
`recclass` "Unclassified". -/
theorem clean_df_fill_defaults (t : Table) (r c : Row) (hr : r ∈ t)
    (hc : clean_row r = some c) :
    c ∈ clean_df t ∧
    (r.recclass = Cell.missing →
      c.recclass = Cell.str "Unclassified" ∧ c.category = some "Other") ∧
    (r.fall = Cell.missing → c.fall = Cell.str "Unknown") ∧
    (r.name = Cell.missing → c.name = Cell.str "Unknown") := by
  rcases clean_row_some_iff.mp hc with ⟨-, -, -, hfin⟩
  refine ⟨mem_clean_df.mpr ⟨r, hr, hc⟩, ?_, ?_, ?_⟩
  · intro hmiss
    subst hfin
    have hrec : (fix_row (coerce_fill_row r)).recclass = Cell.str "Unclassified" := by
      rw [fix_row_recclass, coerce_fill_row_recclass, hmiss]
      rfl
    constructor
    · rw [finish_row_recclass, categorize_row_recclass, hrec]
    · rw [finish_row_category, categorize_row_category]
      have hstr : recStrOf (fix_row (coerce_fill_row r)) = "Unclassified" := by
        unfold recStrOf
        rw [hrec]
        rfl
      rw [hstr]
      decide
  · intro hmiss
    subst hfin
    rw [finish_row_fall, categorize_row_fall, fix_row_fall, coerce_fill_row_fall, hmiss]
    rfl
  · intro hmiss
    subst hfin
    rw [finish_row_name, categorize_row_name, fix_row_name, coerce_fill_row_name, hmiss]
    rfl

/-- C7 witness: the concrete all-missing-strings row survives and comes out
with the three defaults and category `Other`. -/
theorem clean_df_fill_defaults_witness :
    rowMiss_clean ∈ clean_df [rowMiss] ∧
    (rowMiss.recclass = Cell.missing →
      rowMiss_clean.recclass = Cell.str "Unclassified" ∧
        rowMiss_clean.category = some "Other") ∧
    (rowMiss.fall = Cell.missing → rowMiss_clean.fall = Cell.str "Unknown") ∧
    (rowMiss.name = Cell.missing → rowMiss_clean.name = Cell.str "Unknown") :=
  clean_df_fill_defaults [rowMiss] rowMiss rowMiss_clean (by decide) (by decide)

/-! ## C6 -/

/-- C6: the loader uses exactly one source per invocation — if the local
cache exists it is read and labelled "Local CSV" and the remote source is
never consulted (the result does not depend on it); otherwise the remote
URL is fetched and labelled "NASA Open Data"; and on any read failure the
loader returns an empty table labelled "Unavailable" instead of
propagating the exception. -/
theorem load_data_contract :
    (∀ (e : LoadEnv) (df : Table), e.local_exists = true → e.local_read = some df →
      load_data e = (clean_df df, "Local CSV")) ∧
    (∀ (e : LoadEnv) (r1 r2 : Option Table), e.local_exists = true →
      load_data { e with remote_read := r1 } = load_data { e with remote_read := r2 }) ∧
    (∀ (e : LoadEnv) (df : Table), e.local_exists = false → e.remote_read = some df →
      load_data e = (clean_df df, "NASA Open Data")) ∧
    (∀ e : LoadEnv, e.local_exists = true → e.local_read = none →
      load_data e = ([], "Unavailable")) ∧
    (∀ e : LoadEnv, e.local_exists = false → e.remote_read = none →
      load_data e = ([], "Unavailable")) := by
  refine ⟨?_, ?_, ?_, ?_, ?_⟩
  · intro e df h1 h2
    simp [load_data, h1, h2]
  · intro e r1 r2 h1
    simp [load_data, h1]
  · intro e df h1 h2
    simp [load_data, h1, h2]
  · intro e h1 h2
    simp [load_data, h1, h2]
  · intro e h1 h2
    simp [load_data, h1, h2]

def envLocal : LoadEnv :=
  { local_exists := true, local_read := some [rowOK], remote_read := none }

def envRemote : LoadEnv :=
  { local_exists := false, local_read := none, remote_read := some [rowOK] }

def envLocalFail : LoadEnv :=
  { local_exists := true, local_read := none, remote_read := some [rowOK] }

def envRemoteFail : LoadEnv :=
  { local_exists := false, local_read := none, remote_read := none }

/-- C6 witness: the contract instantiated at concrete environments for all
five branches. -/
theorem load_data_contract_witness :
    load_data envLocal = (clean_df [rowOK], "Local CSV") ∧
    load_data { envLocal with remote_read := some [] } =
      load_data { envLocal with remote_read := none } ∧
    load_data envRemote = (clean_df [rowOK], "NASA Open Data") ∧
    load_data envLocalFail = ([], "Unavailable") ∧
    load_data envRemoteFail = ([], "Unavailable") :=
  ⟨load_data_contract.1 envLocal [rowOK] rfl rfl,
    load_data_contract.2.1 envLocal (some []) none rfl,
    load_data_contract.2.2.1 envRemote [rowOK] rfl rfl,
    load_data_contract.2.2.2.1 envLocalFail rfl rfl,
    load_data_contract.2.2.2.2 envRemoteFail rfl rfl⟩

/-! ## C3 -/

/-- A raw row with year 2099 that survives every coercion and filter of
`clean_df`. -/
def row2099 : Row :=
  { id := Cell.num 8, name := Cell.str "Future", recclass := Cell.str "H5",
    mass_g := Cell.num 1, fall := Cell.str "Found", year := Cell.num 2099,
    reclat := Cell.num 10, reclong := Cell.num 20, category := none }

def env2099 : LoadEnv :=
  { local_exists := true, local_read := some [row2099], remote_read := none }

/-- C3 counterexample: the `load_data` that calls `clean_df`
(`src/streamlit_app.py`) applies no year cutoff — a surviving row with
year 2099 appears in its output, and 2099 is not at most 2025. -/
theorem load_data_year_counterexample :
    (load_data env2099).1.map Row.year = [Cell.num 2099] ∧ ¬ ((2099 : ℚ) ≤ 2025) := by
  exact ⟨by decide, by decide⟩

theorem cellLE_num {c : Cell} {x : ℚ} (h : cellLE c x = true) :
    ∃ q : ℚ, c = Cell.num q ∧ q ≤ x := by
  cases c <;> simp_all [cellLE]

/-- C3 amended: it is the `load_data` of `app.py` — which does not call
`clean_df` — whose pipeline applies the `year <= 2025` cutoff: every row of
its cleaned output has an integer year at most 2025. -/
theorem app_load_data_year_cutoff (e : LoadEnv) (c : Row)
    (hc : c ∈ (app_load_data e).1) :
    ∃ y : ℤ, c.year = Cell.num (y : ℚ) ∧ (y : ℚ) ≤ 2025 := by
  have happ : ∀ (t : Table), c ∈ app_prepare t →
      ∃ y : ℤ, c.year = Cell.num (y : ℚ) ∧ (y : ℚ) ≤ 2025 := by
    intro t hct
    simp only [app_prepare, fill_name_col, fill_fall_col, fill_recclass_col,
      List.mem_map] at hct
    rcases hct with ⟨a, ⟨b, ⟨d, hd, rfl⟩, rfl⟩, rfl⟩
    simp only [year_cutoff_step, List.mem_filter] at hd
    rcases hd with ⟨hd1, hle⟩
    simp only [year_int_col, List.mem_map] at hd1
    rcases hd1 with ⟨e0, -, rfl⟩
    cases he : e0.year with
    | missing => rw [he] at hle; simp [astype_int_cell, cellLE] at hle
    | str s => rw [he] at hle; simp [astype_int_cell, cellLE] at hle
    | num q =>
      rw [he] at hle
      rcases cellLE_num hle with ⟨q', hq', hq'le⟩
      have hq'eq : ((astype_int_q q : ℤ) : ℚ) = q' := by
        have hrfl : astype_int_cell (Cell.num q) = Cell.num ((astype_int_q q : ℤ) : ℚ) := rfl
        rw [hrfl, Cell.num.injEq] at hq'
        exact hq'
      exact ⟨astype_int_q q, rfl, by rw [hq'eq]; exact hq'le⟩
  unfold app_load_data at hc
  by_cases hl : e.local_exists = true
  · rw [if_pos hl] at hc
    cases hlr : e.local_read with
    | none => rw [hlr] at hc; cases hc
    | some df => rw [hlr] at hc; exact happ df hc
  · rw [if_neg hl] at hc
    cases hrr : e.remote_read with
    | none => rw [hrr] at hc; cases hc
    | some df => rw [hrr] at hc; exact happ df hc

def envApp : LoadEnv :=
  { local_exists := true, local_read := some [rowOK, row2099], remote_read := none }

/-- C3 witness: on a concrete mixed table the `app.py` loader keeps only
the year-1880 row, whose year is an integer at most 2025. -/
theorem app_load_data_year_cutoff_witness :
    ∃ y : ℤ, rowOK.year = Cell.num (y : ℚ) ∧ (y : ℚ) ≤ 2025 :=
  app_load_data_year_cutoff envApp rowOK (by decide)

/-! ## C8 -/

/-- C8: `clean_df` is deterministic — two separate runs (modelled as runs
from arbitrary stores and handles whose input frames hold the same rows)
return frames holding identical output tables. -/
theorem clean_df_run_deterministic (σ1 σ2 : Store) (h1 h2 : Nat)
    (heq : lookupT σ1 h1 = lookupT σ2 h2) :
    lookupT (clean_df_state σ1 h1).1 (clean_df_state σ1 h1).2 =
      lookupT (clean_df_state σ2 h2).1 (clean_df_state σ2 h2).2 := by
  rw [clean_df_state_result, clean_df_state_result, heq]

/-- C8 witness: two concrete runs on distinct stores holding the same
one-row table produce the same output table. -/
theorem clean_df_run_deterministic_witness :
    lookupT (clean_df_state [[rowOK]] 0).1 (clean_df_state [[rowOK]] 0).2 =
      lookupT (clean_df_state [[], [rowOK]] 1).1 (clean_df_state [[], [rowOK]] 1).2 :=
  clean_df_run_deterministic [[rowOK]] [[], [rowOK]] 0 1 (by decide)

/-! ## C9 -/

/-- C9: `clean_df` is pure with respect to its argument — after a run of
the store-level pipeline, the input frame holds exactly the rows it held
before the call (every mutation hits only the fresh copies). -/
theorem clean_df_state_frame (σ : Store) (h : Nat) (hh : h < σ.length) :
    lookupT (clean_df_state σ h).1 h = lookupT σ h := by
  rw [clean_df_state_eq]
  exact lookupT_append_left σ _ h hh

/-- C9 witness: a concrete run leaves the concrete input frame unchanged. -/
theorem clean_df_state_frame_witness :
    lookupT (clean_df_state [[rowOK]] 0).1 0 = lookupT [[rowOK]] 0 :=
  clean_df_state_frame [[rowOK]] 0 (by decide)

/-! ## C10 -/

/-- A classification string beginning with `C` that the anchored stony
alternatives reject: the `a` after the `C` is neither in `IMVORKHBF` nor a
digit nor a non-word character. -/
def rowCa : Row :=
  { id := Cell.num 9, name := Cell.str "CaRow", recclass := Cell.str "Ca",
    mass_g := Cell.num 1, fall := Cell.str "Found", year := Cell.num 1950,
    reclat := Cell.num 0, reclong := Cell.num 0, category := none }

/-- C10 counterexample: "Ca" begins (case-insensitively) with the letter C
and matches neither the iron nor the stony-iron pattern, yet
`add_category` categorizes it `Other`, not `Stony`. -/
theorem stony_first_letter_counterexample :
    rowCa.recclass = Cell.str "Ca" ∧ "Ca".data.head? = some 'C' ∧
    matches_iron (recStrOf rowCa) = false ∧
    matches_stony_iron (recStrOf rowCa) = false ∧
    (add_category [rowCa]).map Row.category = [some "Other"] :=
  ⟨rfl, rfl, by decide, by decide, by decide⟩

/-- C10 amended: the anchored prefix alternatives accept zero grade
characters and carry no trailing boundary for the groups H, L, E, R, K, F,
so every string beginning (case-insensitively) with one of H, L, E, R, K,
F matches the stony pattern — and is categorized Stony by `add_category`
unless the iron or stony-iron pattern also matches and overrides.  (A
leading C only matches when followed by one of IMVORKHBF, a digit, or a
word boundary.) -/
theorem stony_first_letter :
    (∀ (s : String) (c : Char) (cs : List Char), lowerData s = c :: cs →
      (c = 'h' ∨ c = 'l' ∨ c = 'e' ∨ c = 'r' ∨ c = 'k' ∨ c = 'f') →
      matches_stony s = true) ∧
    (∀ (t : Table) (r : Row), r ∈ add_category t →
      matches_stony (recStrOf r) = true → matches_iron (recStrOf r) = false →
      matches_stony_iron (recStrOf r) = false → r.category = some "Stony") := by
  constructor
  · intro s c cs hdata hc
    simp only [matches_stony]
    rw [hdata]
    rcases hc with rfl | rfl | rfl | rfl | rfl | rfl <;> rfl
  · intro t r hr hs hi hsi
    rw [add_category_eq_map] at hr
    rcases List.mem_map.mp hr with ⟨a, -, rfl⟩
    rw [recStrOf_categorize] at hs hi hsi
    rw [categorize_row_category, hs, hi, hsi]
    simp

/-- C10 witness: "H5" begins with H and is therefore stony; the concrete
`L5` row is categorized Stony by `add_category`. -/
theorem stony_first_letter_witness :
    matches_stony "H5" = true ∧ rowOK_clean.category = some "Stony" :=
  ⟨stony_first_letter.1 "H5" 'h' ['5'] (by decide) (Or.inl rfl),
    stony_first_letter.2 [rowOK] rowOK_clean (by decide) (by decide) (by decide)
      (by decide)⟩
